import Mathlib

/-!
Verification of the PIML dataset-generation / splitting / graph-construction
pipeline (`main.py`) against its natural-language specification.

The source file `main.py` is the pipeline orchestrator.  Pure helpers
(`choose_optimizer`, `get_criterion`, the FNN row slicing and scaling, the
GNN train-frame row filter of line 277) are embedded directly as functions.
The orchestration control flow of `main` and `load_or_generate_data`
(lines 133-333) is embedded as a step-trace semantics: each external call
(generation, pickle load/save, training, evaluation) becomes an abstract
`PipeStep`, so that ordering, presence and absence of pipeline work, and the
error behaviour of `main` can be stated and proved.

Components that live in modules the orchestrator imports
(`training.dataset_generation`, `training.data_preprocessing`,
`training.graphs_formation`) are modelled from the specification where a
claim needs them; each such definition carries a doc comment starting with
"Modelled from the spec:".
-/

namespace PIML

/-- A row of the denormalized Frame: the `Structure` column (the structure id
the row belongs to) plus the remaining columns in their positional order. -/
structure Row where
  sid : Nat
  features : List ℚ
deriving DecidableEq

/-- The three dataset partitions. -/
inductive SplitPart where
  | train
  | val
  | test
deriving DecidableEq

/-- Embeds `choose_optimizer`'s possible successful results (main.py lines
99-116): an Adam optimizer over the model's parameters with a learning rate. -/
inductive OptimizerR where
  | adam (params : List ℚ) (lr : ℚ)
deriving DecidableEq

/-- Embeds `get_criterion`'s possible successful results (main.py lines
118-131). -/
inductive Criterion where
  | l1Loss
  | mseLoss
deriving DecidableEq

/-- Decide whether an `Except` is a success. -/
def exceptOk {ε α : Type} : Except ε α → Bool
  | Except.ok _ => true
  | Except.error _ => false

/-- Embeds `choose_optimizer` (main.py lines 99-116): returns Adam over the
model's parameters for `"Adam"`, raises `ValueError` otherwise.  The model is
represented by its parameter list. -/
def choose_optimizer (params : List ℚ) (optimizerType : String) (lr : ℚ) :
    Except String OptimizerR :=
  if optimizerType = "Adam" then Except.ok (OptimizerR.adam params lr)
  else Except.error ("Unsupported optimizer type: " ++ optimizerType)

/-- Embeds `get_criterion` (main.py lines 118-131): `"L1loss"` gives L1Loss,
`"MSE"` gives MSELoss, anything else raises `ValueError`. -/
def get_criterion (criterionType : String) : Except String Criterion :=
  if criterionType = "L1loss" then Except.ok Criterion.l1Loss
  else if criterionType = "MSE" then Except.ok Criterion.mseLoss
  else Except.error ("Unsupported criterion type: " ++ criterionType)

/-- Embeds the row filter of main.py line 277:
`FrameLarge.loc[FrameLarge['Structure'] <= SAMPLING_CONFIG['SPLIT_IDX']]`.
A row is selected when its structure id is less than OR EQUAL to the split
index. -/
def gnn_train_filter (splitIdx sid : Nat) : Bool :=
  decide (sid ≤ splitIdx)

/-- The GNN train frame of main.py line 277: the rows of the Frame whose
structure id passes `gnn_train_filter`. -/
def gnn_train_df (splitIdx : Nat) (f : List Row) : List Row :=
  f.filter (fun r => gnn_train_filter splitIdx r.sid)

/-- Embeds the FNN split of main.py lines 241-246 as the partition it induces
on row positions: `DF.iloc[:135520]` is train, `DF.iloc[135520:152720]` is
validation, `DF.iloc[152720:169799]` is test, and any later row is in no
partition.  The assignment reads only the row position, never the row. -/
def fnn_row_partition (i : Nat) : Option SplitPart :=
  if i < 135520 then some SplitPart.train
  else if i < 152720 then some SplitPart.val
  else if i < 169799 then some SplitPart.test
  else none

/-- A Frame viewed as a row-position-to-structure-id table, used to state
properties of the purely positional FNN split. -/
structure DFrame where
  len : Nat
  sid : Nat → Nat

/-- Modelled from the spec: `train_val_test_generate`
(`training.data_preprocessing`, not under src/) partitions the Frame rows by
structure-id membership in the three ranges `[0, splitIdx)` train,
`[splitIdx, testIdx)` validation, `[testIdx, n)` test (spec section 4.5 and
section 3, DatasetSplit). -/
def train_val_test_generate (splitIdx testIdx n : Nat) (f : List Row) :
    List Row × List Row × List Row :=
  (f.filter (fun r => decide (r.sid < splitIdx)),
   f.filter (fun r => decide (splitIdx ≤ r.sid) && decide (r.sid < testIdx)),
   f.filter (fun r => decide (testIdx ≤ r.sid) && decide (r.sid < n)))

/-- Mean of a list of rationals (the external scaler's per-column mean). -/
def colMean (xs : List ℚ) : ℚ := xs.sum / xs.length

/-- Population variance of a list of rationals (sklearn's `StandardScaler`
uses the population variance of the fitted column). -/
def colVar (xs : List ℚ) : ℚ :=
  ((xs.map (fun x => (x - colMean xs) ^ 2)).sum) / xs.length

/-- Fitted parameters of one column of a `StandardScaler`: the column mean
and the column scale (square root of the variance). -/
structure ScalerCol where
  mu : ℚ
  sigma : ℚ
deriving DecidableEq

/-- Fit one column.  sklearn computes the scale with a numeric square root;
the square-root kernel is external numeric code, so it is passed in as the
parameter `sqrtQ` and everything proved below holds for every choice of it. -/
def fitCol (sqrtQ : ℚ → ℚ) (xs : List ℚ) : ScalerCol :=
  ⟨colMean xs, sqrtQ (colVar xs)⟩

/-- Transform one value with fitted column parameters:
`(x - mean) / scale`. -/
def transformCol (p : ScalerCol) (x : ℚ) : ℚ := (x - p.mu) / p.sigma

/-- Column `j` of a row-major matrix. -/
def column (M : List (List ℚ)) (j : Nat) : List ℚ :=
  M.map (fun r => r.getD j 0)

/-- `StandardScaler.fit` over a row-major matrix with `ncols` columns:
per-column mean and scale, computed from the fitted matrix only. -/
def standardScalerFit (sqrtQ : ℚ → ℚ) (M : List (List ℚ)) (ncols : Nat) :
    List ScalerCol :=
  (List.range ncols).map (fun j => fitCol sqrtQ (column M j))

/-- `StandardScaler.transform` of one row with previously fitted parameters:
a function of the fitted parameters and that row alone. -/
def standardScalerTransformRow (ps : List ScalerCol) (r : List ℚ) : List ℚ :=
  (List.range ps.length).map (fun j => transformCol (ps.getD j ⟨0, 1⟩) (r.getD j 0))

/-- `StandardScaler.transform` over a matrix: the row transform mapped over
the rows. -/
def standardScalerTransform (ps : List ScalerCol) (M : List (List ℚ)) :
    List (List ℚ) :=
  M.map (standardScalerTransformRow ps)

/-- The feature slice of a Frame row, columns 3..12 (main.py `iloc[:, 3:13]`). -/
def fnn_x_slice (r : List ℚ) : List ℚ := (r.drop 3).take 10

/-- The target slice of a Frame row, columns 19..21 (main.py `iloc[:, 19:22]`). -/
def fnn_y_slice (r : List ℚ) : List ℚ := (r.drop 19).take 3

/-- `x_train_og = DF.iloc[:135520, 3:13]` (main.py line 241). -/
def fnn_x_train_og (DF : List (List ℚ)) : List (List ℚ) :=
  (DF.take 135520).map fnn_x_slice

/-- `y_train_og = DF.iloc[:135520, 19:22]` (main.py line 242). -/
def fnn_y_train_og (DF : List (List ℚ)) : List (List ℚ) :=
  (DF.take 135520).map fnn_y_slice

/-- `x_val = DF.iloc[135520:152720, 3:13]` (main.py line 243). -/
def fnn_x_val (DF : List (List ℚ)) : List (List ℚ) :=
  ((DF.take 152720).drop 135520).map fnn_x_slice

/-- `y_val = DF.iloc[135520:152720, 19:22]` (main.py line 244). -/
def fnn_y_val (DF : List (List ℚ)) : List (List ℚ) :=
  ((DF.take 152720).drop 135520).map fnn_y_slice

/-- `x_test = DF.iloc[152720:169799, 3:13]` (main.py line 245). -/
def fnn_x_test (DF : List (List ℚ)) : List (List ℚ) :=
  ((DF.take 169799).drop 152720).map fnn_x_slice

/-- `y_test = DF.iloc[152720:169799, 19:22]` (main.py line 246). -/
def fnn_y_test (DF : List (List ℚ)) : List (List ℚ) :=
  ((DF.take 169799).drop 152720).map fnn_y_slice

/-- The feature scaler of main.py line 249/252: fitted by
`scaler.fit_transform(x_train_og)`, i.e. on the train slice only. -/
def fnn_scaler_x (sqrtQ : ℚ → ℚ) (DF : List (List ℚ)) : List ScalerCol :=
  standardScalerFit sqrtQ (fnn_x_train_og DF) 10

/-- The target scaler of main.py line 250/255: fitted by
`scalery.fit_transform(y_train_og)`, i.e. on the train slice only. -/
def fnn_scaler_y (sqrtQ : ℚ → ℚ) (DF : List (List ℚ)) : List ScalerCol :=
  standardScalerFit sqrtQ (fnn_y_train_og DF) 3

/-- `x_val = scaler.transform(x_val)` (main.py line 253). -/
def fnn_x_val_scaled (sqrtQ : ℚ → ℚ) (DF : List (List ℚ)) : List (List ℚ) :=
  standardScalerTransform (fnn_scaler_x sqrtQ DF) (fnn_x_val DF)

/-- `x_test = scaler.transform(x_test)` (main.py line 254). -/
def fnn_x_test_scaled (sqrtQ : ℚ → ℚ) (DF : List (List ℚ)) : List (List ℚ) :=
  standardScalerTransform (fnn_scaler_x sqrtQ DF) (fnn_x_test DF)

/-- `y_val = scalery.transform(y_val)` (main.py line 256). -/
def fnn_y_val_scaled (sqrtQ : ℚ → ℚ) (DF : List (List ℚ)) : List (List ℚ) :=
  standardScalerTransform (fnn_scaler_y sqrtQ DF) (fnn_y_val DF)

/-- `y_test = scalery.transform(y_test)` (main.py line 257). -/
def fnn_y_test_scaled (sqrtQ : ℚ → ℚ) (DF : List (List ℚ)) : List (List ℚ) :=
  standardScalerTransform (fnn_scaler_y sqrtQ DF) (fnn_y_test DF)

/-- Configuration of the structure sampler and query-point generator, the
fields of `MATERIAL_CONFIG` and `SAMPLING_CONFIG` the modelled generator
consumes (ranges and increments collapsed to one material for brevity; the
determinism property is independent of the number of materials). -/
structure GenConfig where
  nPoints : Nat
  nLayers : Nat
  thickLo : Nat
  thickHi : Nat
  thickInc : Nat
  modLo : Nat
  modHi : Nat
  modInc : Nat
  zPoints : Nat
  xPoints : Nat
  aPoints : Nat
deriving DecidableEq

/-- A linear congruential pseudo-random step: the explicit seed-threaded
random state of the modelled sampler. -/
def lcg (s : Nat) : Nat := (1103515245 * s + 12345) % 2147483648

/-- Draw an increment-aligned value in `[lo, hi]` from a raw random word. -/
def sampleAligned (lo hi inc r : Nat) : Nat :=
  lo + inc * (r % ((hi - lo) / inc + 1))

/-- A sampled layer: thickness and modulus (both increment-aligned). -/
structure LayerR where
  thickness : Nat
  modulus : Nat
deriving DecidableEq

/-- Sample `n` layers, threading the random state explicitly. -/
def genLayers : Nat → GenConfig → Nat → List LayerR × Nat
  | 0, _, s => ([], s)
  | n + 1, cfg, s =>
      let s1 := lcg s
      let s2 := lcg s1
      let layer : LayerR := ⟨sampleAligned cfg.thickLo cfg.thickHi cfg.thickInc s1,
                             sampleAligned cfg.modLo cfg.modHi cfg.modInc s2⟩
      let rest := genLayers n cfg s2
      (layer :: rest.1, rest.2)

/-- Sample `n` structures, threading the random state from one structure to
the next. -/
def genStructures : Nat → GenConfig → Nat → List (List LayerR)
  | 0, _, _ => []
  | n + 1, cfg, s =>
      let st := genLayers cfg.nLayers cfg s
      st.1 :: genStructures n cfg st.2

/-- Modelled from the spec: `generatesection`
(`training.dataset_generation`, not under src/), the StructureSampler of
spec section 4.1 — a deterministic seeded sampler producing `N_POINTS`
structures whose only inputs are the configuration and the explicit seed; no
other state persists across calls. -/
def generatesection (cfg : GenConfig) (seed : Nat) : List (List LayerR) :=
  genStructures cfg.nPoints cfg seed

/-- Modelled from the spec: `generate_query_points`
(`training.dataset_generation`, not under src/), the QueryPointGenerator of
spec section 4.2 — for every structure, `Z_POINTS * X_POINTS * A_POINTS`
query points `(structure_id, x, z)` in one fixed iteration order, identical
for every structure. -/
def generate_query_points (cfg : GenConfig) (structs : List (List LayerR)) :
    List (Nat × Nat × Nat) :=
  (List.range structs.length).flatMap (fun sid =>
    (List.range cfg.zPoints).flatMap (fun z =>
      (List.range cfg.xPoints).flatMap (fun x =>
        (List.range cfg.aPoints).map (fun _ => (sid, x, z)))))

/-- Modelled from the spec: the per-structure subgraph node sequence of the
GraphBuilder (`training.graphs_formation`, not under src/; spec section 4.6)
— the nodes of structure `s`'s subgraph are that structure's rows of the
split frame the graph is built from, in their order in that frame. -/
def subgraph_nodes (split : List Row) (s : Nat) : List (List ℚ) :=
  (split.filter (fun r => decide (r.sid = s))).map Row.features

/-- The tabular side of the cross-representation claim: the ordered feature
rows of structure `s` in the full Frame. -/
def frame_rows_of (f : List Row) (s : Nat) : List (List ℚ) :=
  (f.filter (fun r => decide (r.sid = s))).map Row.features

/-- The `--mode` argument (argparse choices, optional). -/
inductive RunMode where
  | train
  | eval
deriving DecidableEq

/-- The `--model` argument (argparse choices, optional). -/
inductive NetKind where
  | gnn
  | fnn
  | pnn
deriving DecidableEq

/-- The command-line arguments `main` consults (main.py lines 63-97):
`--run_analysis` defaults to false; `--mode` and `--model` are optional
choice arguments; `--model_path` is optional; `--optimizer` defaults to
`"Adam"`; `--criterion` is a required string. -/
structure CliArgs where
  runAnalysis : Bool
  mode : Option RunMode
  model : Option NetKind
  modelPath : Option String
  optimizer : String
  criterion : String
deriving DecidableEq

/-- The observable pipeline actions of `main` and `load_or_generate_data`,
one constructor per external call of main.py lines 133-333.
`validateSchema` and the corresponding `MainFault.configError` exist in the
vocabulary because the spec demands them; whether any run ever performs or
raises them is exactly what is proved below. -/
inductive PipeStep where
  | mkdirData
  | generateSection
  | generateQueryPoints
  | analysisRun
  | loadFrame
  | loadSection
  | validateSchema
  | removeStrainZStep
  | saveZS
  | saveXs
  | trainValTestGen
  | trainPNN
  | evalPNN
  | fnnSlice
  | fitScalers
  | evalFNN
  | trainFNN
  | gnnFilterStep
  | formationMatrices
  | buildModel
  | buildTrainGraph
  | buildValGraph
  | buildTestGraph
  | saveGraph
  | evalGNN
  | trainGNN
deriving DecidableEq

/-- The fatal errors `main` can raise, plus the spec's configuration and
schema errors (spec section 7) so that their absence is expressible. -/
inductive MainFault where
  | modelPathRequired
  | configError
  | schemaMismatch
  | unsupportedOptimizer
  | unsupportedCriterion
deriving DecidableEq

/-- The split-relevant fields of `SAMPLING_CONFIG` (main.py lines 42-53). -/
structure SamplingCfg where
  nPoints : Nat
  splitIdx : Nat
  testIdx : Nat
  seed : Nat
deriving DecidableEq

/-- The concrete `SAMPLING_CONFIG` values of main.py lines 42-53. -/
def samplingConfig : SamplingCfg := ⟨1000, 800, 900, 42⟩

/-- Embeds the guard of main.py line 191:
`args.mode == "eval" and not args.model_path` — Python's falsiness makes an
absent path and an empty path equivalent. -/
def evalPathMissing (a : CliArgs) : Bool :=
  decide (a.mode = some RunMode.eval) && decide (a.modelPath.getD "" = "")

/-- The step trace of `load_or_generate_data` (main.py lines 133-182): with
`run_analysis` it generates, runs the analysis, and re-loads the freshly
written pickles; without it, it only loads the two pickles.  Neither branch
performs any schema validation step. -/
def load_or_generate_steps (runAnalysis : Bool) : List PipeStep :=
  if runAnalysis then
    [PipeStep.mkdirData, PipeStep.generateSection, PipeStep.generateQueryPoints,
     PipeStep.analysisRun, PipeStep.loadFrame, PipeStep.loadSection]
  else
    [PipeStep.mkdirData, PipeStep.loadFrame, PipeStep.loadSection]

/-- The steps of main.py lines 195-221, common to every model branch: the
data load/generate call, then the unconditional temporary `generatesection`
(line 197), the unconditional `generate_query_points` (line 209),
`remove_strain_z` (line 215), and — only with `run_analysis` — the ZS/xs
pickle saves (lines 216-221). -/
def preSteps (a : CliArgs) : List PipeStep :=
  load_or_generate_steps a.runAnalysis ++
    [PipeStep.generateSection, PipeStep.generateQueryPoints, PipeStep.removeStrainZStep] ++
    (if a.runAnalysis then [PipeStep.saveZS, PipeStep.saveXs] else [])

/-- The GNN branch of main.py lines 275-333: row filter, split generation,
matrix formation, model construction, the three graphs, the optional graph
save, then either evaluation or the optimizer/criterion checks and
training. -/
def gnnTailSteps (a : CliArgs) : List PipeStep × Option MainFault :=
  let base := [PipeStep.gnnFilterStep, PipeStep.trainValTestGen, PipeStep.formationMatrices,
               PipeStep.buildModel, PipeStep.buildTrainGraph, PipeStep.buildValGraph,
               PipeStep.buildTestGraph] ++
              (if a.runAnalysis then [PipeStep.saveGraph] else [])
  if a.mode = some RunMode.eval then (base ++ [PipeStep.evalGNN], none)
  else if a.optimizer = "Adam" then
    if a.criterion = "L1loss" ∨ a.criterion = "MSE" then
      if a.mode = some RunMode.train then (base ++ [PipeStep.trainGNN], none)
      else (base, none)
    else (base, some MainFault.unsupportedCriterion)
  else (base, some MainFault.unsupportedOptimizer)

/-- The model-specific tail of `main` (lines 223-333): the PNN branch (split
then train or eval), the FNN branch (row slicing and scaling then eval or
train), the GNN branch, or nothing when no model is selected. -/
def modelSteps (a : CliArgs) : List PipeStep × Option MainFault :=
  match a.model with
  | some NetKind.pnn =>
      ([PipeStep.trainValTestGen] ++
        (if a.mode = some RunMode.train then [PipeStep.trainPNN]
         else if a.mode = some RunMode.eval then [PipeStep.evalPNN] else []), none)
  | some NetKind.fnn =>
      ([PipeStep.fnnSlice, PipeStep.fitScalers] ++
        (if a.mode = some RunMode.eval then [PipeStep.evalFNN]
         else if a.mode = some RunMode.train then [PipeStep.trainFNN] else []), none)
  | some NetKind.gnn => gnnTailSteps a
  | none => ([], none)

/-- The step-trace semantics of `main` (main.py lines 184-333): the
performed pipeline steps in order, and the fatal error, if any.  The
configuration is a parameter because `main` reads `SAMPLING_CONFIG`, but the
control flow of main.py never branches on it — it only forwards the values
into the split and generation calls. -/
def mainRun (cfg : SamplingCfg) (a : CliArgs) : List PipeStep × Option MainFault :=
  if evalPathMissing a then ([], some MainFault.modelPathRequired)
  else
    let tail := modelSteps a
    (preSteps a ++ tail.1, tail.2)

/-- The on-disk pickled artifacts `load_or_generate_data` reads in
load-cached mode: `frame_large.pkl` and `section.pkl`. -/
structure DiskStore where
  frame : List Row
  sectionData : List (List LayerR)
deriving DecidableEq

/-- Embeds the load-cached branch of `load_or_generate_data` (main.py lines
176-181): the two pickles are read and returned directly; nothing is
inspected or compared against the configuration. -/
def load_cached_data (disk : DiskStore) : List Row × List (List LayerR) :=
  (disk.frame, disk.sectionData)

/-- Modelled from the spec: the schema/dimension check that load-cached mode
is supposed to perform before a cached artifact is used (spec sections 4.7,
6 and 7(c)) — here, that every row's structure id lies inside the configured
structure-index domain.  `load_or_generate_data` contains no such check. -/
def schemaMatches (cfg : SamplingCfg) (f : List Row) : Bool :=
  f.all (fun r => decide (r.sid < cfg.nPoints))

/-- A load-cached training invocation of the GNN path:
`--model GNN --mode train --criterion MSE` with the default optimizer and
without `--run_analysis`. -/
def loadTrainGnnArgs : CliArgs :=
  ⟨false, some RunMode.train, some NetKind.gnn, none, "Adam", "MSE"⟩

/-- An eval invocation without a model path. -/
def evalNoPathArgs : CliArgs :=
  ⟨false, some RunMode.eval, some NetKind.gnn, none, "Adam", "MSE"⟩

/-- A sampling configuration violating `0 < split_idx < test_idx < N_POINTS`
(the split index exceeds the test index). -/
def badSplitCfg : SamplingCfg := ⟨1000, 900, 800, 42⟩

/-- A cached store whose frame mentions structure id 2000, outside the
configured domain of 1000 structures. -/
def badDisk : DiskStore := ⟨[⟨2000, []⟩], []⟩

/-- A Frame-shaped table on which one structure owns every row, so its rows
straddle the FNN row-position boundaries. -/
def c2Frame : DFrame := ⟨169799, fun _ => 968⟩

/-- A four-row Frame touching all three structure-id ranges. -/
def c8Frame : List Row := [⟨0, [1]⟩, ⟨800, [2]⟩, ⟨0, [3]⟩, ⟨950, [4]⟩]

/-- A small generator configuration for concrete evaluation. -/
def smallGenCfg : GenConfig := ⟨3, 2, 2, 16, 1, 500, 2000, 50, 2, 2, 1⟩

/-- The fatal result of `modelSteps` is never the spec's configuration
error: no branch of the model dispatch raises one. -/
theorem modelSteps_no_configError (a : CliArgs) :
    (modelSteps a).2 ≠ some MainFault.configError := by
  cases hm : a.model with
  | none => simp [modelSteps, hm]
  | some k =>
    cases k with
    | gnn =>
      simp only [modelSteps, hm, gnnTailSteps]
      split_ifs <;> simp
    | fnn => simp [modelSteps, hm]
    | pnn => simp [modelSteps, hm]

/-- `main` never reports a configuration error, whatever the configuration
and arguments. -/
theorem mainRun_no_configError (cfg : SamplingCfg) (a : CliArgs) :
    (mainRun cfg a).2 ≠ some MainFault.configError := by
  unfold mainRun
  split
  · simp
  · exact modelSteps_no_configError a

/-- Every run that passes the eval-path guard performs the structure
generation and query-point generation steps (main.py lines 197-213 run
unconditionally). -/
theorem generate_mem_mainRun (cfg : SamplingCfg) (a : CliArgs)
    (h : evalPathMissing a = false) :
    PipeStep.generateSection ∈ (mainRun cfg a).1 ∧
    PipeStep.generateQueryPoints ∈ (mainRun cfg a).1 := by
  have hpre : PipeStep.generateSection ∈ preSteps a ∧
      PipeStep.generateQueryPoints ∈ preSteps a := by
    cases hr : a.runAnalysis <;> simp [preSteps, load_or_generate_steps, hr]
  constructor <;> · simp [mainRun, h, List.mem_append]; left; tauto

/-- No branch of the model dispatch performs a schema-validation step. -/
theorem validateSchema_not_in_modelSteps (a : CliArgs) :
    PipeStep.validateSchema ∉ (modelSteps a).1 := by
  cases hm : a.model with
  | none => simp [modelSteps, hm]
  | some k =>
    cases k with
    | gnn =>
      simp only [modelSteps, hm, gnnTailSteps]
      split_ifs <;> simp
    | fnn =>
      simp only [modelSteps, hm]
      split_ifs <;> simp
    | pnn =>
      simp only [modelSteps, hm]
      split_ifs <;> simp

/-- No run of `main` ever performs a schema-validation step. -/
theorem validateSchema_not_in_mainRun (cfg : SamplingCfg) (a : CliArgs) :
    PipeStep.validateSchema ∉ (mainRun cfg a).1 := by
  unfold mainRun
  split
  · simp
  · simp only [List.mem_append, not_or]
    refine ⟨?_, validateSchema_not_in_modelSteps a⟩
    cases hr : a.runAnalysis <;> simp [preSteps, load_or_generate_steps, hr]

/-- C1: evaluating the GNN train row-filter of main.py line 277 at the
failing input.  With `SPLIT_IDX = 800` the code's filter
(`Structure <= SPLIT_IDX`) selects structure id 800 — a row of structure 800
enters the GNN train frame — although 800 does not satisfy
`0 <= s < split_idx` (structure 800 belongs to the validation range
`[800, 900)`). -/
theorem C1_gnn_filter_off_by_one :
    gnn_train_filter 800 800 = true ∧
    Row.mk 800 [] ∈ gnn_train_df 800 [Row.mk 800 []] ∧
    decide (0 ≤ 800 ∧ 800 < 800) = false := by
  decide

/-- C2 counterexample: the FNN path's partition is a function of row
position alone, so a Frame in which one structure's rows straddle row
position 135520 has rows of the same structure landing in different
partitions — rows 0 and 135520 of `c2Frame` share structure id 968 but are
assigned to train and validation respectively. -/
theorem C2_fnn_positional_split_cex :
    ¬ (∀ i j, i < c2Frame.len → j < c2Frame.len →
        c2Frame.sid i = c2Frame.sid j →
        fnn_row_partition i = fnn_row_partition j) := by
  intro h
  have h2 := h 0 135520 (by decide) (by decide) rfl
  exact absurd h2 (by decide)

/-- C2 (amended): the PNN and GNN tabular splits
(`train_val_test_generate`) select rows by structure-id membership in the
configured ranges, but the FNN path assigns a row to a partition purely by
its row position — train exactly for positions below 135520, validation for
`[135520, 152720)`, test for `[152720, 169799)` — with no reference to the
row's structure id. -/
theorem C2_split_mechanisms :
    (∀ (splitIdx testIdx n : Nat) (f : List Row) (r : Row),
      (r ∈ (train_val_test_generate splitIdx testIdx n f).1 ↔
        r ∈ f ∧ r.sid < splitIdx) ∧
      (r ∈ (train_val_test_generate splitIdx testIdx n f).2.1 ↔
        r ∈ f ∧ splitIdx ≤ r.sid ∧ r.sid < testIdx) ∧
      (r ∈ (train_val_test_generate splitIdx testIdx n f).2.2 ↔
        r ∈ f ∧ testIdx ≤ r.sid ∧ r.sid < n)) ∧
    (∀ i : Nat,
      (fnn_row_partition i = some SplitPart.train ↔ i < 135520) ∧
      (fnn_row_partition i = some SplitPart.val ↔ 135520 ≤ i ∧ i < 152720) ∧
      (fnn_row_partition i = some SplitPart.test ↔ 152720 ≤ i ∧ i < 169799)) := by
  constructor
  · intro splitIdx testIdx n f r
    refine ⟨?_, ?_, ?_⟩ <;>
      simp [train_val_test_generate, List.mem_filter, and_assoc]
  · intro i
    unfold fnn_row_partition
    refine ⟨?_, ?_, ?_⟩ <;> split_ifs <;> simp <;> omega

/-- C3 counterexample: a cached frame that names structure id 2000 under a
configuration with 1000 structures violates the schema check the spec
demands, yet the load-cached branch of `load_or_generate_data` hands it
onward unchanged. -/
theorem C3_stale_artifact_used_cex :
    schemaMatches samplingConfig badDisk.frame = false ∧
    (load_cached_data badDisk).1 = badDisk.frame := by
  exact ⟨by decide, rfl⟩

/-- C3 (amended): the load-cached branch performs no validation at all: the
pickled artifacts are returned unconditionally — also when they mismatch the
configuration — and no run of `main` ever performs a schema-validation
step. -/
theorem C3_load_cached_no_validation :
    ∀ (cfg : SamplingCfg) (disk : DiskStore) (a : CliArgs),
      schemaMatches cfg disk.frame = false →
      load_cached_data disk = (disk.frame, disk.sectionData) ∧
      PipeStep.validateSchema ∉ (mainRun cfg a).1 := by
  intro cfg disk a _
  exact ⟨rfl, validateSchema_not_in_mainRun cfg a⟩

/-- C3 witness: the amended statement applied to the concrete mismatching
store. -/
theorem C3_load_cached_no_validation_witness :
    load_cached_data badDisk = (badDisk.frame, badDisk.sectionData) ∧
    PipeStep.validateSchema ∉ (mainRun samplingConfig loadTrainGnnArgs).1 :=
  C3_load_cached_no_validation samplingConfig badDisk loadTrainGnnArgs (by decide)

/-- C4 counterexample: under a configuration with
`split_idx = 900 > test_idx = 800` — violating
`0 < split_idx < test_idx < N_POINTS` — the pipeline still performs the
generation work and reports no configuration error. -/
theorem C4_invalid_split_not_rejected_cex :
    ¬ (0 < badSplitCfg.splitIdx ∧ badSplitCfg.splitIdx < badSplitCfg.testIdx ∧
        badSplitCfg.testIdx < badSplitCfg.nPoints) ∧
    PipeStep.generateSection ∈ (mainRun badSplitCfg loadTrainGnnArgs).1 ∧
    (mainRun badSplitCfg loadTrainGnnArgs).2 ≠ some MainFault.configError := by
  decide

/-- C4 (amended): `main` performs no validation of the split indices: for
any run that is not aborted by the missing-model-path guard, its behaviour
is identical under every sampling configuration, it never reports a
configuration error, and structure generation is always performed. -/
theorem C4_no_split_validation :
    ∀ (cfg cfg2 : SamplingCfg) (a : CliArgs), evalPathMissing a = false →
      mainRun cfg a = mainRun cfg2 a ∧
      (mainRun cfg a).2 ≠ some MainFault.configError ∧
      PipeStep.generateSection ∈ (mainRun cfg a).1 := by
  intro cfg cfg2 a h
  exact ⟨rfl, mainRun_no_configError cfg a, (generate_mem_mainRun cfg a h).1⟩

/-- C4 witness: the amended statement at the invalid configuration and a
concrete training invocation. -/
theorem C4_no_split_validation_witness :
    mainRun badSplitCfg loadTrainGnnArgs = mainRun samplingConfig loadTrainGnnArgs ∧
    (mainRun badSplitCfg loadTrainGnnArgs).2 ≠ some MainFault.configError ∧
    PipeStep.generateSection ∈ (mainRun badSplitCfg loadTrainGnnArgs).1 :=
  C4_no_split_validation badSplitCfg samplingConfig loadTrainGnnArgs (by decide)

/-- C5 counterexample: in load-cached mode (`run_analysis` false) the run
does read the frame pickle, but it also still performs `generatesection` and
`generate_query_points` (main.py lines 197-213 run unconditionally), so
generation is re-run despite the cache. -/
theorem C5_load_mode_still_generates_cex :
    loadTrainGnnArgs.runAnalysis = false ∧
    PipeStep.loadFrame ∈ (mainRun samplingConfig loadTrainGnnArgs).1 ∧
    PipeStep.generateSection ∈ (mainRun samplingConfig loadTrainGnnArgs).1 ∧
    PipeStep.generateQueryPoints ∈ (mainRun samplingConfig loadTrainGnnArgs).1 := by
  decide

/-- C5 (amended): in load-cached mode `load_or_generate_data` itself only
reads the two pickles and performs no generation, but `main` afterwards
unconditionally re-runs structure generation and query-point generation. -/
theorem C5_load_cached_behavior :
    ∀ (cfg : SamplingCfg) (a : CliArgs),
      a.runAnalysis = false → evalPathMissing a = false →
      load_or_generate_steps a.runAnalysis =
        [PipeStep.mkdirData, PipeStep.loadFrame, PipeStep.loadSection] ∧
      PipeStep.generateSection ∉ load_or_generate_steps a.runAnalysis ∧
      PipeStep.generateSection ∈ (mainRun cfg a).1 ∧
      PipeStep.generateQueryPoints ∈ (mainRun cfg a).1 := by
  intro cfg a h1 h2
  rw [h1]
  exact ⟨rfl, by decide, (generate_mem_mainRun cfg a h2).1,
    (generate_mem_mainRun cfg a h2).2⟩

/-- C5 witness: the amended statement at the concrete load-cached training
invocation. -/
theorem C5_load_cached_behavior_witness :
    load_or_generate_steps loadTrainGnnArgs.runAnalysis =
      [PipeStep.mkdirData, PipeStep.loadFrame, PipeStep.loadSection] ∧
    PipeStep.generateSection ∉ load_or_generate_steps loadTrainGnnArgs.runAnalysis ∧
    PipeStep.generateSection ∈ (mainRun samplingConfig loadTrainGnnArgs).1 ∧
    PipeStep.generateQueryPoints ∈ (mainRun samplingConfig loadTrainGnnArgs).1 :=
  C5_load_cached_behavior samplingConfig loadTrainGnnArgs rfl (by decide)

/-- C9: with `--mode eval` and no model path, `main` raises the
`ValueError` immediately: the run performs no pipeline step at all — no data
is loaded or generated and no model is constructed. -/
theorem C9_eval_requires_model_path :
    ∀ (cfg : SamplingCfg) (a : CliArgs),
      a.mode = some RunMode.eval → a.modelPath = none →
      mainRun cfg a = ([], some MainFault.modelPathRequired) := by
  intro cfg a h1 h2
  have hguard : evalPathMissing a = true := by
    simp [evalPathMissing, h1, h2]
  simp [mainRun, hguard]

/-- C9 witness: the theorem applied to a concrete eval invocation without a
model path. -/
theorem C9_eval_requires_model_path_witness :
    mainRun samplingConfig evalNoPathArgs = ([], some MainFault.modelPathRequired) :=
  C9_eval_requires_model_path samplingConfig evalNoPathArgs rfl rfl

/-- C10: `choose_optimizer` succeeds exactly on `"Adam"`, and then with an
Adam optimizer over the model's parameters; `get_criterion` maps `"L1loss"`
to L1Loss and `"MSE"` to MSELoss and fails on every other string. -/
theorem C10_optimizer_criterion_dispatch :
    ∀ (params : List ℚ) (lr : ℚ) (t : String),
      (choose_optimizer params t lr = Except.ok (OptimizerR.adam params lr) ↔
        t = "Adam") ∧
      exceptOk (choose_optimizer params t lr) = decide (t = "Adam") ∧
      get_criterion "L1loss" = Except.ok Criterion.l1Loss ∧
      get_criterion "MSE" = Except.ok Criterion.mseLoss ∧
      exceptOk (get_criterion t) = (decide (t = "L1loss") || decide (t = "MSE")) := by
  intro params lr t
  refine ⟨?_, ?_, by simp [get_criterion], by simp [get_criterion], ?_⟩
  · by_cases h : t = "Adam" <;> simp [choose_optimizer, h]
  · by_cases h : t = "Adam" <;> simp [choose_optimizer, h, exceptOk]
  · by_cases h1 : t = "L1loss"
    · simp [get_criterion, h1, exceptOk]
    · by_cases h2 : t = "MSE" <;> simp [get_criterion, h1, h2, exceptOk]

/-- C6: in the FNN path both scalers are fitted on the train slice only —
any two Frames agreeing on the first 135520 rows yield identical fitted
feature and target scalers — and every validation/test matrix is obtained by
mapping the train-fitted row transform over its rows, so the transform of a
validation/test row is solely a function of the train-fitted statistics and
that row. -/
theorem C6_fnn_scalers_train_only :
    ∀ (sqrtQ : ℚ → ℚ) (DF DF2 : List (List ℚ)),
      DF.take 135520 = DF2.take 135520 →
      fnn_scaler_x sqrtQ DF = fnn_scaler_x sqrtQ DF2 ∧
      fnn_scaler_y sqrtQ DF = fnn_scaler_y sqrtQ DF2 ∧
      fnn_x_val_scaled sqrtQ DF =
        (fnn_x_val DF).map (standardScalerTransformRow (fnn_scaler_x sqrtQ DF)) ∧
      fnn_x_test_scaled sqrtQ DF =
        (fnn_x_test DF).map (standardScalerTransformRow (fnn_scaler_x sqrtQ DF)) ∧
      fnn_y_val_scaled sqrtQ DF =
        (fnn_y_val DF).map (standardScalerTransformRow (fnn_scaler_y sqrtQ DF)) ∧
      fnn_y_test_scaled sqrtQ DF =
        (fnn_y_test DF).map (standardScalerTransformRow (fnn_scaler_y sqrtQ DF)) := by
  intro sqrtQ DF DF2 h
  have hx : fnn_x_train_og DF = fnn_x_train_og DF2 := by
    unfold fnn_x_train_og
    rw [h]
  have hy : fnn_y_train_og DF = fnn_y_train_og DF2 := by
    unfold fnn_y_train_og
    rw [h]
  refine ⟨?_, ?_, rfl, rfl, rfl, rfl⟩
  · unfold fnn_scaler_x
    rw [hx]
  · unfold fnn_scaler_y
    rw [hy]

/-- C6 witness: the theorem applied to a concrete one-row Frame. -/
theorem C6_fnn_scalers_train_only_witness :
    fnn_scaler_x (fun q => q) [[1, 2]] = fnn_scaler_x (fun q => q) [[1, 2]] ∧
    fnn_scaler_y (fun q => q) [[1, 2]] = fnn_scaler_y (fun q => q) [[1, 2]] ∧
    fnn_x_val_scaled (fun q => q) [[1, 2]] =
      (fnn_x_val [[1, 2]]).map
        (standardScalerTransformRow (fnn_scaler_x (fun q => q) [[1, 2]])) ∧
    fnn_x_test_scaled (fun q => q) [[1, 2]] =
      (fnn_x_test [[1, 2]]).map
        (standardScalerTransformRow (fnn_scaler_x (fun q => q) [[1, 2]])) ∧
    fnn_y_val_scaled (fun q => q) [[1, 2]] =
      (fnn_y_val [[1, 2]]).map
        (standardScalerTransformRow (fnn_scaler_y (fun q => q) [[1, 2]])) ∧
    fnn_y_test_scaled (fun q => q) [[1, 2]] =
      (fnn_y_test [[1, 2]]).map
        (standardScalerTransformRow (fnn_scaler_y (fun q => q) [[1, 2]])) :=
  C6_fnn_scalers_train_only (fun q => q) [[1, 2]] [[1, 2]] rfl

/-- C7: generation is a deterministic function of the configuration and the
seed: two runs with equal seeds produce identical structure sequences and
identical query-point sequences; the modelled sampler threads its random
state explicitly from the seed and reads no other state. -/
theorem C7_generation_deterministic :
    ∀ (cfg : GenConfig) (s1 s2 : Nat), s1 = s2 →
      generatesection cfg s1 = generatesection cfg s2 ∧
      generate_query_points cfg (generatesection cfg s1) =
        generate_query_points cfg (generatesection cfg s2) := by
  intro cfg s1 s2 h
  subst h
  exact ⟨rfl, rfl⟩

/-- C7 witness: the theorem at a concrete configuration and seed 42. -/
theorem C7_generation_deterministic_witness :
    generatesection smallGenCfg 42 = generatesection smallGenCfg 42 ∧
    generate_query_points smallGenCfg (generatesection smallGenCfg 42) =
      generate_query_points smallGenCfg (generatesection smallGenCfg 42) :=
  C7_generation_deterministic smallGenCfg 42 42 rfl

/-- Filtering a frame down to one structure commutes with any split filter
that keeps that structure: the split keeps the structure's rows in their
Frame order and nothing else of that structure is lost. -/
theorem subgraph_filter_collapse (f : List Row) (s : Nat) (p : Row → Bool)
    (hp : ∀ r : Row, r.sid = s → p r = true) :
    subgraph_nodes (f.filter p) s = frame_rows_of f s := by
  unfold subgraph_nodes frame_rows_of
  rw [List.filter_filter]
  congr 1
  apply List.filter_congr
  intro r _
  by_cases hr : r.sid = s
  · simp [hr, hp r hr]
  · simp [hr]

/-- C8: for every structure of every split, the node ordering of its
subgraph inside the batched graph — the structure's rows of the split frame,
in order — equals the row ordering of that structure's rows in the full
tabular Frame. -/
theorem C8_graph_tabular_order :
    ∀ (f : List Row) (splitIdx testIdx n s : Nat),
      (s < splitIdx →
        subgraph_nodes (train_val_test_generate splitIdx testIdx n f).1 s =
          frame_rows_of f s) ∧
      (splitIdx ≤ s → s < testIdx →
        subgraph_nodes (train_val_test_generate splitIdx testIdx n f).2.1 s =
          frame_rows_of f s) ∧
      (testIdx ≤ s → s < n →
        subgraph_nodes (train_val_test_generate splitIdx testIdx n f).2.2 s =
          frame_rows_of f s) := by
  intro f splitIdx testIdx n s
  refine ⟨fun h => ?_, fun h1 h2 => ?_, fun h1 h2 => ?_⟩ <;>
    simp only [train_val_test_generate]
  · exact subgraph_filter_collapse f s _ (fun r hr => by simp [hr, h])
  · exact subgraph_filter_collapse f s _ (fun r hr => by simp [hr, h1, h2])
  · exact subgraph_filter_collapse f s _ (fun r hr => by simp [hr, h1, h2])

/-- C8 witness: the three range cases at a concrete four-row Frame with the
configured split indices. -/
theorem C8_graph_tabular_order_witness :
    subgraph_nodes (train_val_test_generate 800 900 1000 c8Frame).1 0 =
      frame_rows_of c8Frame 0 ∧
    subgraph_nodes (train_val_test_generate 800 900 1000 c8Frame).2.1 800 =
      frame_rows_of c8Frame 800 ∧
    subgraph_nodes (train_val_test_generate 800 900 1000 c8Frame).2.2 950 =
      frame_rows_of c8Frame 950 :=
  ⟨(C8_graph_tabular_order c8Frame 800 900 1000 0).1 (by decide),
   (C8_graph_tabular_order c8Frame 800 900 1000 800).2.1 (by decide) (by decide),
   (C8_graph_tabular_order c8Frame 800 900 1000 950).2.2 (by decide) (by decide)⟩

end PIML
